import Mathlib

/-!
# SmartRide dashboard script (`static/js/script.js`)

A shallow embedding of the client-side script: the DOM, the browser store, timers and the
notification area are explicit state, JavaScript strings are lists of characters
(well-formed strings, no lone surrogates), and the browser built-ins the script calls
(`JSON.stringify`, `JSON.parse`, `String.prototype.toLowerCase`) are parameters.
-/

namespace SmartRide

/-! ## JavaScript strings -/

/-- A JavaScript string, as the list of its characters. -/
abbrev JSString := List Char

/-- The code points `String.prototype.trim` strips: ECMAScript WhiteSpace and LineTerminator. -/
def isWhiteSpace (c : Char) : Bool :=
  let n := c.toNat
  n == 0x09 || n == 0x0A || n == 0x0B || n == 0x0C || n == 0x0D || n == 0x20 || n == 0xA0 ||
  n == 0x1680 || (0x2000 ≤ n && n ≤ 0x200A) || n == 0x2028 || n == 0x2029 || n == 0x202F ||
  n == 0x205F || n == 0x3000 || n == 0xFEFF

/-- The JavaScript method `s.trim()`. -/
def trim (s : JSString) : JSString :=
  ((s.dropWhile isWhiteSpace).reverse.dropWhile isWhiteSpace).reverse

/-- The call `s.replace(/"/g, '""')`: every double quote is replaced by two. -/
def replaceQuotes (s : JSString) : JSString :=
  s.flatMap fun c => if c = '"' then ['"', '"'] else [c]

/-- The JavaScript method `parts.join(sep)` on an array of strings. -/
def join (sep : JSString) : List JSString → JSString
  | [] => []
  | [x] => x
  | x :: y :: rest => x ++ sep ++ join sep (y :: rest)

/-- The JavaScript method `text.includes(query)`: `query` occurs in `text` as a substring. -/
def includes (text query : JSString) : Bool :=
  text.tails.any fun t => query.isPrefixOf t

/-! ## CSV export -/

/-- A `tr` element as `exportToCSV` sees it: the `textContent` of each element that
`row.querySelectorAll('td, th')` returns, in document order. -/
abbrev TableRow := List JSString

/-- What `downloadCSV` offers for download: the blob's content and the `download` name. -/
structure Download where
  content : JSString
  filename : JSString
  deriving DecidableEq, Repr

/-- The function `downloadCSV(content, filename)`: a blob holding `content` is offered under
`filename` through a temporary anchor element. -/
def downloadCSV (content filename : JSString) : Download :=
  { content := content, filename := filename }

/-- The body of the inner `cols.forEach`: trim the cell text, double its quotes, and push
the quoted field onto `rowData`. -/
def pushCell (rowData : List JSString) (col : JSString) : List JSString :=
  let cellData := trim col
  let cellData := replaceQuotes cellData
  rowData ++ [['"'] ++ cellData ++ ['"']]

/-- The body of the outer `rows.forEach`: build `rowData` and push `rowData.join(',')`. -/
def pushRow (csv : List JSString) (row : TableRow) : List JSString :=
  let rowData := row.foldl pushCell []
  csv ++ [join [','] rowData]

/-- The function `exportToCSV(tableId, filename = 'export.csv')`. `table` is the result of
`document.getElementById(tableId)` (`none` for `null`), given by the rows that
`table.querySelectorAll('tr')` returns; `filename` is `none` when the argument is omitted.
The result is the download triggered, if any. -/
def exportToCSV (table : Option (List TableRow)) (filename : Option JSString) :
    Option Download :=
  let filename := filename.getD "export.csv".toList
  match table with
  | none => none
  | some rows =>
    let csv := rows.foldl pushRow []
    some (downloadCSV (join ['\n'] csv) filename)

/-- The field format of the export: the trimmed cell text with its quotes doubled, between
double quotes. -/
def csvField (text : JSString) : JSString :=
  ['"'] ++ replaceQuotes (trim text) ++ ['"']

/-- The field format without the trimming step: the cell text itself with its quotes
doubled, between double quotes. -/
def quotedText (text : JSString) : JSString :=
  ['"'] ++ replaceQuotes text ++ ['"']

/-! ## Live search filter -/

/-- A `tbody tr` element as `performSearch` sees it: its `textContent` and the inline
`style.display` value. -/
structure SearchRow where
  textContent : JSString
  display : JSString
  deriving DecidableEq, Repr

/-- The body of `rows.forEach` in `performSearch`. `toLowerCase` is the built-in
`String.prototype.toLowerCase`. -/
def filterRow (toLowerCase : JSString → JSString) (query : JSString) (row : SearchRow) :
    SearchRow :=
  let text := toLowerCase row.textContent
  let isMatch := includes text (toLowerCase query)
  { row with display := if isMatch then [] else "none".toList }

/-- The function `performSearch(query, target)`. `targetElement` is the result of
`document.querySelector(target)` (`none` for `null`), given by the rows that
`targetElement.querySelectorAll('tbody tr')` returns; the result is those rows after the
call (`none` when there is no such element: the function returns early). -/
def performSearch (toLowerCase : JSString → JSString) (query : JSString)
    (targetElement : Option (List SearchRow)) : Option (List SearchRow) :=
  match targetElement with
  | none => none
  | some rows => some (rows.map (filterRow toLowerCase query))

/-- Lower-casing of the ASCII letters, on which `toLowerCase` agrees with the built-in for
strings of ASCII characters. -/
def asciiToLowerCase (s : JSString) : JSString :=
  s.map fun c => if 'A'.toNat ≤ c.toNat ∧ c.toNat ≤ 'Z'.toNat then Char.ofNat (c.toNat + 32) else c

/-! ## JavaScript values and errors -/

/-- The JavaScript values the script handles: those of JSON, `undefined`, and BigInt
values. Numbers are the integral ones (those below 10^21 in magnitude, which JavaScript
writes in decimal notation). An object is the list of its own properties in insertion
order. -/
inductive JSValue where
  | undefined
  | null
  | bool (b : Bool)
  | number (n : Int)
  | bigint (n : Int)
  | string (s : JSString)
  | array (items : List JSValue)
  | object (props : List (JSString × JSValue))
  deriving Repr

/-- The abstract operation ToBoolean: what `if (v)`, `v && …`, `v || …` and `v ? … : …`
test. -/
def JSValue.truthy : JSValue → Bool
  | .undefined => false
  | .null => false
  | .bool b => b
  | .number n => n != 0
  | .bigint n => n != 0
  | .string s => !s.isEmpty
  | .array _ => true
  | .object _ => true

mutual
/-- The abstract operation ToString, applied by `setAttribute` to its value argument. -/
def JSValue.toJSString : JSValue → JSString
  | .undefined => "undefined".toList
  | .null => "null".toList
  | .bool true => "true".toList
  | .bool false => "false".toList
  | .number n => (toString n).toList
  | .bigint n => (toString n).toList
  | .string s => s
  | .array items => join [','] (JSValue.itemStrings items)
  | .object _ => "[object Object]".toList
/-- The pieces `Array.prototype.join` joins: `undefined` and `null` give the empty string. -/
def JSValue.itemStrings : List JSValue → List JSString
  | [] => []
  | .undefined :: rest => [] :: JSValue.itemStrings rest
  | .null :: rest => [] :: JSValue.itemStrings rest
  | v :: rest => JSValue.toJSString v :: JSValue.itemStrings rest
end

/-- The default parameter `= null`: an omitted argument, which is `undefined`, becomes
`null`, and any other argument is kept. -/
def nullDefault : JSValue → JSValue
  | .undefined => .null
  | d => d

/-- A thrown value: an error object with its `name` and `message`. -/
structure JSError where
  name : JSString
  message : JSString
  deriving DecidableEq, Repr

/-- The expression `new Error(message)`. -/
def newError (message : JSString) : JSError :=
  { name := "Error".toList, message := message }

/-- The statement `try { body } catch (e) { handler(e) }`. -/
def tryCatch {α : Type} (body : Except JSError α) (handler : JSError → Except JSError α) :
    Except JSError α :=
  match body with
  | .ok a => .ok a
  | .error e => handler e

/-- The browser's `JSON` object. `stringify` throws, returns `undefined` (`none`) or returns
a text; `parse` throws a `SyntaxError` or returns the value read. -/
structure JSONHost where
  stringify : JSValue → Except JSError (Option JSString)
  parse : JSString → Except JSError JSValue

/-- The value `v` is JSON-serializable on this host: `JSON.stringify(v)` is a JSON text,
which is never empty, and `JSON.parse` reads it back as `v`. -/
def JSONHost.Serializable (json : JSONHost) (v : JSValue) : Prop :=
  ∃ text, json.stringify v = .ok (some text) ∧ text ≠ [] ∧ json.parse text = .ok v

/-- Set property `key` of an object (or entry of a key-value store): an existing key keeps
its place and gets the new value, a new key is added at the end. -/
def assocSet {β : Type} (key : JSString) (value : β) :
    List (JSString × β) → List (JSString × β)
  | [] => [(key, value)]
  | (k, v) :: rest => if k = key then (k, value) :: rest else (k, v) :: assocSet key value rest

/-- Read property `key` of an object (or entry of a key-value store). -/
def assocGet {β : Type} (key : JSString) : List (JSString × β) → Option β
  | [] => none
  | (k, v) :: rest => if k = key then some v else assocGet key rest

/-! ## Local storage wrapper -/

/-- The browser's `localStorage`: its entries, and whether the browser refuses reads
(storage access denied) or writes (denied, or quota exceeded) by throwing. -/
structure LocalStorage where
  items : List (JSString × JSString)
  readFails : Bool
  writeFails : Bool
  deriving DecidableEq, Repr

/-- The method `localStorage.getItem(key)`; `none` is `null`. -/
def LocalStorage.getItem (store : LocalStorage) (key : JSString) :
    Except JSError (Option JSString) :=
  if store.readFails then
    .error { name := "SecurityError".toList, message := "The operation is insecure.".toList }
  else .ok (assocGet key store.items)

/-- The method `localStorage.setItem(key, value)`. -/
def LocalStorage.setItem (store : LocalStorage) (key value : JSString) :
    Except JSError LocalStorage :=
  if store.writeFails then
    .error { name := "QuotaExceededError".toList, message := "The quota has been exceeded.".toList }
  else .ok { store with items := assocSet key value store.items }

/-- The function `Storage.set(key, value)`: the store after the call. `setItem` converts
an `undefined` result of `JSON.stringify` to the string `undefined`. The `console.error`
of the handler is not part of the state. -/
def Storage.set (json : JSONHost) (store : LocalStorage) (key : JSString) (value : JSValue) :
    Except JSError LocalStorage :=
  tryCatch
    (do
      let text ← json.stringify value
      store.setItem key (text.getD "undefined".toList))
    (fun _ => pure store)

/-- The function `Storage.get(key, defaultValue = null)`. An omitted argument is
`undefined`, which the default parameter replaces by `null`. -/
def Storage.get (json : JSONHost) (store : LocalStorage) (key : JSString)
    (defaultValue : JSValue) : Except JSError JSValue :=
  let defaultValue := nullDefault defaultValue
  tryCatch
    (do
      let item ← store.getItem key
      match item with
      | some text => if !text.isEmpty then json.parse text else pure defaultValue
      | none => pure defaultValue)
    (fun _ => pure defaultValue)

/-! ## Theme manager -/

/-- The state the theme manager works on: the `data-theme` attribute of `document.body`
(`none` when the attribute is absent) and the local storage. -/
structure Browser where
  dataTheme : Option JSString
  localStorage : LocalStorage
  deriving DecidableEq, Repr

/-- The function `ThemeManager.setTheme(theme)`. -/
def ThemeManager.setTheme (json : JSONHost) (browser : Browser) (theme : JSValue) :
    Except JSError Browser := do
  let browser := { browser with dataTheme := some theme.toJSString }
  let store ← Storage.set json browser.localStorage "theme".toList theme
  pure { browser with localStorage := store }

/-- The function `ThemeManager.init()`. -/
def ThemeManager.init (json : JSONHost) (browser : Browser) : Except JSError Browser := do
  let savedTheme ← Storage.get json browser.localStorage "theme".toList (.string "light".toList)
  ThemeManager.setTheme json browser savedTheme

/-- The function `ThemeManager.toggleTheme()`. -/
def ThemeManager.toggleTheme (json : JSONHost) (browser : Browser) : Except JSError Browser :=
  let currentTheme := match browser.dataTheme with
    | some attr => if !attr.isEmpty then attr else "light".toList
    | none => "light".toList
  let newTheme := if currentTheme = "light".toList then "dark".toList else "light".toList
  ThemeManager.setTheme json browser (.string newTheme)

/-! ## A reference `JSON` host

A serializer and a reader for the values of `JSValue`, standing for the browser's `JSON`
object in the worked examples. The reader accepts the JSON texts whose numbers are integers
and whose strings hold no surrogate escapes, and rejects everything else.
-/

/-- The hexadecimal digit, in lower case, of a number below sixteen. -/
def hexDigit (n : Nat) : Char :=
  if n < 10 then Char.ofNat (48 + n) else Char.ofNat (87 + n)

/-- The escape of one character inside a JSON string. -/
def quoteChar (c : Char) : JSString :=
  if c = '"' then ['\\', '"']
  else if c = '\\' then ['\\', '\\']
  else if c = '\n' then ['\\', 'n']
  else if c = '\r' then ['\\', 'r']
  else if c = '\t' then ['\\', 't']
  else if c.toNat = 8 then ['\\', 'b']
  else if c.toNat = 12 then ['\\', 'f']
  else if c.toNat < 32 then
    ['\\', 'u', '0', '0', hexDigit (c.toNat / 16), hexDigit (c.toNat % 16)]
  else [c]

/-- A string as a JSON string literal. -/
def quoteString (s : JSString) : JSString :=
  ['"'] ++ s.flatMap quoteChar ++ ['"']

/-- The `TypeError` that `JSON.stringify` throws on a BigInt value. -/
def bigIntError : JSError :=
  { name := "TypeError".toList, message := "Do not know how to serialize a BigInt".toList }

mutual
/-- The reference `JSON.stringify`: it throws on a BigInt value, also inside an array or an
object, and `none` is `undefined`. -/
def stringifyValue : JSValue → Except JSError (Option JSString)
  | .undefined => .ok none
  | .null => .ok (some "null".toList)
  | .bool true => .ok (some "true".toList)
  | .bool false => .ok (some "false".toList)
  | .number n => .ok (some (toString n).toList)
  | .bigint _ => .error bigIntError
  | .string s => .ok (some (quoteString s))
  | .array items =>
    match stringifyItems items with
    | .ok parts => .ok (some (['['] ++ join [','] parts ++ [']']))
    | .error e => .error e
  | .object props =>
    match stringifyProps props with
    | .ok parts => .ok (some (['{'] ++ join [','] parts ++ ['}']))
    | .error e => .error e
/-- The elements of an array: `undefined` is written `null`. -/
def stringifyItems : List JSValue → Except JSError (List JSString)
  | [] => .ok []
  | v :: rest =>
    match stringifyValue v with
    | .error e => .error e
    | .ok text =>
      match stringifyItems rest with
      | .ok parts => .ok (text.getD "null".toList :: parts)
      | .error e => .error e
/-- The members of an object: a property whose value is `undefined` is left out. -/
def stringifyProps : List (JSString × JSValue) → Except JSError (List JSString)
  | [] => .ok []
  | (k, v) :: rest =>
    match stringifyValue v with
    | .error e => .error e
    | .ok text =>
      match stringifyProps rest with
      | .ok parts =>
        match text with
        | none => .ok parts
        | some text => .ok ((quoteString k ++ [':'] ++ text) :: parts)
      | .error e => .error e
end

/-- JSON white space. -/
def isJSONSpace (c : Char) : Bool :=
  c = ' ' || c = '\t' || c = '\n' || c = '\r'

/-- Drop leading JSON white space. -/
def skipSpace (cs : JSString) : JSString :=
  cs.dropWhile isJSONSpace

/-- The value of a hexadecimal digit. -/
def hexValue (c : Char) : Option Nat :=
  let n := c.toNat
  if 48 ≤ n ∧ n ≤ 57 then some (n - 48)
  else if 97 ≤ n ∧ n ≤ 102 then some (n - 87)
  else if 65 ≤ n ∧ n ≤ 70 then some (n - 55)
  else none

/-- Read the rest of a JSON string literal, after its opening quote: the string and the
text after the closing quote. -/
def readString : JSString → Option (JSString × JSString)
  | [] => none
  | '"' :: rest => some ([], rest)
  | '\\' :: 'u' :: a :: b :: c :: d :: rest =>
    match hexValue a, hexValue b, hexValue c, hexValue d with
    | some a, some b, some c, some d =>
      let n := ((a * 16 + b) * 16 + c) * 16 + d
      if 0xD800 ≤ n ∧ n ≤ 0xDFFF then none
      else (readString rest).map fun (s, r) => (Char.ofNat n :: s, r)
    | _, _, _, _ => none
  | '\\' :: e :: rest =>
    let unescaped : Option Char :=
      if e = '"' then some '"'
      else if e = '\\' then some '\\'
      else if e = '/' then some '/'
      else if e = 'b' then some (Char.ofNat 8)
      else if e = 'f' then some (Char.ofNat 12)
      else if e = 'n' then some '\n'
      else if e = 'r' then some '\r'
      else if e = 't' then some '\t'
      else none
    match unescaped with
    | some c => (readString rest).map fun (s, r) => (c :: s, r)
    | none => none
  | c :: rest =>
    if c.toNat < 32 ∨ c = '\\' then none
    else (readString rest).map fun (s, r) => (c :: s, r)

/-- The number a list of decimal digits denotes. -/
def digitsValue (digits : JSString) : Nat :=
  digits.foldl (fun n c => 10 * n + (c.toNat - 48)) 0

/-- Read a JSON integer: an optional minus sign, then `0` or a digit string without a
leading zero; a fraction or an exponent after it is outside the fragment. -/
def readNumber (cs : JSString) : Option (JSValue × JSString) :=
  let (negative, cs) := match cs with
    | '-' :: rest => (true, rest)
    | cs => (false, cs)
  let digits := cs.takeWhile Char.isDigit
  let rest := cs.dropWhile Char.isDigit
  let wellFormed := match digits with
    | [] => false
    | '0' :: more => more.isEmpty
    | _ => true
  let continues := match rest with
    | '.' :: _ => true
    | 'e' :: _ => true
    | 'E' :: _ => true
    | _ => false
  if wellFormed && !continues then
    let n : Int := digitsValue digits
    some (.number (if negative then -n else n), rest)
  else none

mutual
/-- Read one JSON value: the value and the text after it. -/
def readValue : Nat → JSString → Option (JSValue × JSString)
  | 0, _ => none
  | fuel + 1, cs =>
    match skipSpace cs with
    | 'n' :: 'u' :: 'l' :: 'l' :: rest => some (.null, rest)
    | 't' :: 'r' :: 'u' :: 'e' :: rest => some (.bool true, rest)
    | 'f' :: 'a' :: 'l' :: 's' :: 'e' :: rest => some (.bool false, rest)
    | '"' :: rest => (readString rest).map fun (s, r) => (.string s, r)
    | '[' :: rest =>
      match skipSpace rest with
      | ']' :: r => some (.array [], r)
      | r => (readElements fuel r).map fun (items, r) => (.array items, r)
    | '{' :: rest =>
      match skipSpace rest with
      | '}' :: r => some (.object [], r)
      | r => (readMembers fuel [] r).map fun (props, r) => (.object props, r)
    | cs => readNumber cs
/-- Read the elements of a non-empty array, up to and including the closing bracket. -/
def readElements : Nat → JSString → Option (List JSValue × JSString)
  | 0, _ => none
  | fuel + 1, cs =>
    match readValue fuel cs with
    | none => none
    | some (v, r) =>
      match skipSpace r with
      | ',' :: r => (readElements fuel r).map fun (items, r) => (v :: items, r)
      | ']' :: r => some ([v], r)
      | _ => none
/-- Read the members of a non-empty object, up to and including the closing brace; a
repeated key takes the last value. -/
def readMembers : Nat → List (JSString × JSValue) → JSString →
    Option (List (JSString × JSValue) × JSString)
  | 0, _, _ => none
  | fuel + 1, props, cs =>
    match skipSpace cs with
    | '"' :: r =>
      match readString r with
      | none => none
      | some (key, r) =>
        match skipSpace r with
        | ':' :: r =>
          match readValue fuel r with
          | none => none
          | some (v, r) =>
            match skipSpace r with
            | ',' :: r => readMembers fuel (assocSet key v props) r
            | '}' :: r => some (assocSet key v props, r)
            | _ => none
        | _ => none
    | _ => none
end

/-- The reference `JSON.parse`: one value, with nothing but white space after it. -/
def parseText (text : JSString) : Option JSValue :=
  match readValue (2 * text.length + 2) text with
  | some (v, rest) => if (skipSpace rest).isEmpty then some v else none
  | none => none

/-- The reference host: it throws a `TypeError` on serializing a BigInt value, and a
`SyntaxError` on a text it cannot read. -/
def refJSON : JSONHost where
  stringify v := stringifyValue v
  parse text :=
    match parseText text with
    | some v => .ok v
    | none => .error { name := "SyntaxError".toList, message := "JSON.parse: bad text".toList }

/-! ## The page: forms, alerts and timers -/

/-- The method `classList.add(token)`. -/
def classListAdd (classList : List JSString) (token : JSString) : List JSString :=
  if token ∈ classList then classList else classList ++ [token]

/-- The method `classList.remove(token)`. -/
def classListRemove (classList : List JSString) (token : JSString) : List JSString :=
  classList.filter fun t => t ≠ token

/-- A `button` element: its `disabled` property and its class list. -/
structure Button where
  disabled : Bool
  classList : List JSString
  deriving DecidableEq, Repr

/-- The `submit` listeners the script registers. -/
inductive SubmitListener where
  /-- The listener of `initializeFormValidations`. -/
  | validation
  /-- The listener of `initializeLoadingStates`. -/
  | loading
  deriving DecidableEq, Repr

/-- A `form` element: its class list, the result of `checkValidity()`, the element that
`form.querySelector('button[type="submit"]')` returns (`none` for `null`), and the
`submit` listeners registered on it, in registration order. -/
structure Form where
  classList : List JSString
  checkValidity : Bool
  submitButton : Option Button
  listeners : List SubmitListener
  deriving DecidableEq, Repr

/-- An alert element: its class list, its `role` attribute and its message. -/
structure Alert where
  classList : List JSString
  role : Option JSString
  message : JSString
  deriving DecidableEq, Repr

/-- What a timer does when it fires. -/
inductive TimerAction where
  /-- The callback of `showLoading`: `hideLoading(button)`, for the submit button of the
  form at this position. -/
  | hideLoading (form : Nat)
  /-- The callback of `showAlert` and `initializeAutoHideAlerts`: close this alert. -/
  | closeAlert (alert : Alert)
  deriving DecidableEq, Repr

/-- A pending `setTimeout`: its delay in milliseconds and its callback. -/
structure Timer where
  delay : Nat
  action : TimerAction
  deriving DecidableEq, Repr

/-- The page: the forms that `document.querySelectorAll('form')` returns, the alert
elements of the alert container (first child first), and the pending timers in scheduling
order. -/
structure Page where
  forms : List Form
  alerts : List Alert
  timers : List Timer
  deriving DecidableEq, Repr

/-- A `submit` event as it is dispatched. -/
structure SubmitEvent where
  defaultPrevented : Bool
  propagationStopped : Bool
  deriving DecidableEq, Repr

/-- The elements the script turns into widgets of other libraries, each given by what
constructing its widget does, completing or throwing: for every element matching
`[data-bs-toggle="tooltip"]` the call `new bootstrap.Tooltip(element)` (it throws a
`ReferenceError` when `bootstrap` is not loaded), whether `DataTable` is defined, and for
every element matching `.data-table` the call `new DataTable(table, options)`. -/
structure Widgets where
  tooltips : List (Except JSError Unit)
  dataTableDefined : Bool
  dataTables : List (Except JSError Unit)

/-- Run the constructor calls in order: the first one that throws ends the loop. -/
def constructAll : List (Except JSError Unit) → Except JSError Unit
  | [] => .ok ()
  | .ok _ :: rest => constructAll rest
  | .error e :: _ => .error e

/-- The function `initializeTooltips()`. -/
def initializeTooltips (widgets : Widgets) : Except JSError Unit :=
  constructAll widgets.tooltips

/-- The function `initializeDataTables()`. -/
def initializeDataTables (widgets : Widgets) : Except JSError Unit :=
  if widgets.dataTables.length > 0 && widgets.dataTableDefined then
    constructAll widgets.dataTables
  else .ok ()

/-- Replace the form at position `i`. -/
def Page.setForm (page : Page) (i : Nat) (form : Form) : Page :=
  { page with forms := page.forms.set i form }

/-- The function `initializeFormValidations()`: every form matching `.needs-validation`
gets the validation listener. -/
def initializeFormValidations (page : Page) : Page :=
  { page with forms := page.forms.map fun form =>
      if "needs-validation".toList ∈ form.classList then
        { form with listeners := form.listeners ++ [SubmitListener.validation] }
      else form }

/-- The function `initializeAutoHideAlerts()`: every `.alert[role="alert"]` without the
class `alert-important` gets a timer of 5000 ms that closes it. -/
def initializeAutoHideAlerts (page : Page) : Page :=
  let alerts := page.alerts.filter fun alert =>
    "alert".toList ∈ alert.classList ∧ alert.role = some "alert".toList
  { page with timers := page.timers ++
      (alerts.filter fun alert => "alert-important".toList ∉ alert.classList).map fun alert =>
        { delay := 5000, action := TimerAction.closeAlert alert } }

/-- The function `initializeLoadingStates()`: every form gets the loading listener. -/
def initializeLoadingStates (page : Page) : Page :=
  { page with forms := page.forms.map fun form =>
      { form with listeners := form.listeners ++ [SubmitListener.loading] } }

/-- The function `initializeApp()`, run on `DOMContentLoaded`: the page it leaves, and
whether it completed or threw. Nothing is caught: when `initializeTooltips()` throws, no
later initializer runs and no listener is registered; when `initializeDataTables()` throws,
the listeners and timers of the earlier initializers stay. -/
def initializeApp (widgets : Widgets) (page : Page) : Page × Except JSError Unit :=
  match initializeTooltips widgets with
  | .error e => (page, .error e)
  | .ok _ =>
    let page := initializeFormValidations page
    let page := initializeAutoHideAlerts page
    let page := initializeLoadingStates page
    (page, initializeDataTables widgets)

/-- The function `showLoading(button)`, for the submit button of the form at position `i`. -/
def showLoading (page : Page) (i : Nat) (form : Form) (button : Button) : Page :=
  let button := { button with disabled := true }
  let button := { button with classList := classListAdd button.classList "loading".toList }
  let page := page.setForm i { form with submitButton := some button }
  { page with timers := page.timers ++ [{ delay := 10000, action := TimerAction.hideLoading i }] }

/-- The function `hideLoading(button)`. -/
def hideLoading (button : Button) : Button :=
  let button := { button with disabled := false }
  { button with classList := classListRemove button.classList "loading".toList }

/-- Run one `submit` listener of the form at position `i`. -/
def runListener (i : Nat) (state : Page × SubmitEvent) (listener : SubmitListener) :
    Page × SubmitEvent :=
  let (page, event) := state
  match page.forms[i]? with
  | none => (page, event)
  | some form =>
    match listener with
    | .validation =>
      let event :=
        if !form.checkValidity then
          { event with defaultPrevented := true, propagationStopped := true }
        else event
      (page.setForm i { form with classList := classListAdd form.classList "was-validated".toList },
        event)
    | .loading =>
      match form.submitButton with
      | some button => if !button.disabled then (showLoading page i form button, event)
        else (page, event)
      | none => (page, event)

/-- A `submit` event on the form at position `i`: its listeners run in registration order.
The result is the page after them and the event as the browser then finds it. -/
def dispatchSubmit (page : Page) (i : Nat) : Page × SubmitEvent :=
  match page.forms[i]? with
  | none => (page, { defaultPrevented := false, propagationStopped := false })
  | some form =>
    form.listeners.foldl (runListener i) (page, { defaultPrevented := false, propagationStopped := false })

/-- A pending timer fires: it leaves the list of timers and its callback runs. -/
def fireTimer (page : Page) (timer : Timer) : Page :=
  let page := { page with timers := page.timers.erase timer }
  match timer.action with
  | .hideLoading i =>
    match page.forms[i]? with
    | some form =>
      match form.submitButton with
      | some button => page.setForm i { form with submitButton := some (hideLoading button) }
      | none => page
    | none => page
  | .closeAlert alert => { page with alerts := page.alerts.erase alert }

/-! ## Alerts and the request helper -/

/-- The function `showAlert(message, type = 'info')`: the new alert is inserted before the
first child of the container and closed by a timer of 5000 ms. -/
def showAlert (page : Page) (message : JSString) (type : Option JSString) : Page :=
  let type := type.getD "info".toList
  let alertElement : Alert :=
    { classList := ["alert".toList, "alert-".toList ++ type, "alert-dismissible".toList,
        "fade".toList, "show".toList],
      role := some "alert".toList,
      message := message }
  { page with
    alerts := alertElement :: page.alerts,
    timers := page.timers ++ [{ delay := 5000, action := TimerAction.closeAlert alertElement }] }

/-- The function `showSuccess(message)`. -/
def showSuccess (page : Page) (message : JSString) : Page :=
  showAlert page message (some "success".toList)

/-- The function `showError(message)`. -/
def showError (page : Page) (message : JSString) : Page :=
  showAlert page message (some "danger".toList)

/-- The `config` object `makeRequest` hands to `fetch`; `body` is `none` when the object has
no `body` property or the property is `undefined`. -/
structure RequestConfig where
  method : JSString
  headers : List (JSString × JSString)
  body : Option JSString
  deriving DecidableEq, Repr

/-- A `Response`: its `ok` flag, its status, and what the promise of `response.json()`
settles to. -/
structure Response where
  ok : Bool
  status : Nat
  json : Except JSError JSValue

/-- The synchronous part of `makeRequest(url, method = 'GET', data = null, headers = {})`:
the `config` object. An omitted `method` is `none`, an omitted `data` is `undefined`. -/
def requestConfig (json : JSONHost) (method : Option JSString) (data : JSValue)
    (headers : List (JSString × JSString)) : Except JSError RequestConfig := do
  let method := method.getD "GET".toList
  let data := nullDefault data
  let config : RequestConfig :=
    { method := method,
      headers := headers.foldl (fun merged (k, v) => assocSet k v merged)
        [("Content-Type".toList, "application/json".toList)],
      body := none }
  if data.truthy &&
      (method = "POST".toList || method = "PUT".toList || method = "PATCH".toList) then
    let body ← json.stringify data
    pure { config with body := body }
  else pure config

/-- The `then` callback of `makeRequest`. -/
def onResponse (response : Response) : Except JSError JSValue :=
  if !response.ok then
    throw (newError ("HTTP error! status: ".toList ++ (toString response.status).toList))
  else response.json

/-- The `catch` callback of `makeRequest`: the notification, and the error thrown again. -/
def onFailure (page : Page) (error : JSError) : Except JSError JSValue × Page :=
  (throw error, showError page "An error occurred while processing your request.".toList)

/-- The promise chain `fetch(url, config).then(…).catch(…)`, given what the promise of
`fetch` settles to: what the returned promise settles to, and the page then. -/
def settle (page : Page) (fetched : Except JSError Response) :
    Except JSError JSValue × Page :=
  match fetched >>= onResponse with
  | .ok body => (.ok body, page)
  | .error error => onFailure page error

/-- The function `makeRequest(url, method, data, headers)`. `fetch` gives what the promise
of the browser's `fetch(url, config)` settles to. The result is the page after the call and
either the error `makeRequest` throws before it reaches `fetch` (the outer error), or what
the promise it returns settles to. -/
def makeRequest (json : JSONHost)
    (fetch : JSString → RequestConfig → Except JSError Response) (page : Page)
    (url : JSString) (method : Option JSString) (data : JSValue)
    (headers : List (JSString × JSString)) :
    Except JSError (Except JSError JSValue) × Page :=
  match requestConfig json method data headers with
  | .error e => (.error e, page)
  | .ok config =>
    let settled := settle page (fetch url config)
    (.ok settled.1, settled.2)

/-! ## Predicates on the state of a dispatch -/

/-- In this state of a dispatch the form at position `i` fails its constraint check. -/
def FormInvalid (i : Nat) (state : Page × SubmitEvent) : Prop :=
  ∃ form, state.1.forms[i]? = some form ∧ form.checkValidity = false

/-- In this state of a dispatch the submission is cancelled and the form at position `i`
is marked: the default action is prevented, propagation is stopped, and the form has the
class `was-validated`. -/
def SubmitCancelled (i : Nat) (state : Page × SubmitEvent) : Prop :=
  state.2.defaultPrevented = true ∧ state.2.propagationStopped = true ∧
    ∃ form, state.1.forms[i]? = some form ∧ "was-validated".toList ∈ form.classList

/-- In this state of a dispatch the submit button of the form at position `i` is `button`
and the pending timers are `timers`. -/
def ButtonIs (i : Nat) (button : Button) (timers : List Timer)
    (state : Page × SubmitEvent) : Prop :=
  ∃ form, state.1.forms[i]? = some form ∧ form.submitButton = some button ∧
    state.1.timers = timers

/-- The button as `showLoading` leaves it. -/
def loadingButton (button : Button) : Button :=
  { disabled := true, classList := classListAdd button.classList "loading".toList }

/-! ## CSV export: proofs -/

theorem foldl_pushCell (cols acc : List JSString) :
    cols.foldl pushCell acc = acc ++ cols.map csvField := by
  induction cols generalizing acc with
  | nil => simp
  | cons c cs ih => simp [List.foldl_cons, ih, pushCell, csvField]

theorem foldl_pushRow (rows : List TableRow) (acc : List JSString) :
    rows.foldl pushRow acc = acc ++ rows.map fun row => join [','] (row.map csvField) := by
  induction rows generalizing acc with
  | nil => simp
  | cons r rs ih => simp [List.foldl_cons, ih, pushRow, foldl_pushCell]

/-- C1 (as amended): for a table that `exportToCSV` finds, the content handed to
`downloadCSV` is the rows joined by newline, each row its `td`/`th` cells joined by commas,
each cell its trimmed text with every double quote doubled, between double quotes; the
file name is the one given, `export.csv` by default. A cell whose text is
`He said "hi"` yields the field `"He said ""hi"""`. -/
theorem exportToCSV_content (rows : List TableRow) (filename : Option JSString) :
    exportToCSV (some rows) filename =
        some (downloadCSV
          (join ['\n'] (rows.map fun row =>
            join [','] (row.map fun text => ['"'] ++ replaceQuotes (trim text) ++ ['"'])))
          (filename.getD "export.csv".toList)) ∧
      exportToCSV (some [["He said \"hi\"".toList]]) none =
        some (downloadCSV "\"He said \"\"hi\"\"\"".toList "export.csv".toList) := by
  refine ⟨?_, by decide⟩
  simp only [exportToCSV, foldl_pushRow, List.nil_append]
  rfl

/-- C1 (as stated) fails: the cell text is trimmed first, so a cell whose text is ` a `
yields the field `"a"` and not the text itself between quotes. -/
theorem exportToCSV_untrimmed_counterexample :
    exportToCSV (some [[" a ".toList]]) none =
        some (downloadCSV "\"a\"".toList "export.csv".toList) ∧
      exportToCSV (some [[" a ".toList]]) none ≠
        some (downloadCSV
          (join ['\n'] ([[" a ".toList]].map fun row => join [','] (row.map quotedText)))
          "export.csv".toList) := by
  decide

/-! ## Live search filter: proofs -/

theorem includes_iff (text query : JSString) :
    includes text query = true ↔ query <:+: text := by
  unfold includes
  rw [List.any_eq_true, List.infix_iff_prefix_suffix]
  constructor
  · rintro ⟨t, ht, hp⟩
    exact ⟨t, List.isPrefixOf_iff_prefix.mp hp, (List.mem_tails _ _).mp ht⟩
  · rintro ⟨t, hp, hs⟩
    exact ⟨t, (List.mem_tails _ _).mpr hs, List.isPrefixOf_iff_prefix.mpr hp⟩

theorem filterRow_display (toLowerCase : JSString → JSString) (query : JSString)
    (row : SearchRow) :
    (filterRow toLowerCase query row).textContent = row.textContent ∧
      ((filterRow toLowerCase query row).display = [] ↔
        toLowerCase query <:+: toLowerCase row.textContent) ∧
      ((filterRow toLowerCase query row).display = "none".toList ↔
        ¬ toLowerCase query <:+: toLowerCase row.textContent) := by
  have h := includes_iff (toLowerCase row.textContent) (toLowerCase query)
  by_cases hm : includes (toLowerCase row.textContent) (toLowerCase query) = true
  · have hi := h.mp hm
    simp [filterRow, hm, hi]
  · have hi : ¬ toLowerCase query <:+: toLowerCase row.textContent := fun hi => hm (h.mpr hi)
    simp [filterRow, hm, hi]

/-- C2: after `performSearch(query, target)` on an existing target, every `tbody` row keeps
its place and text, is visible (display `''`) exactly when its lower-cased text contains
the lower-cased query as a substring, and is hidden (display `'none'`) exactly when it
does not; with rows Alice and Bob and query `ali` only the Alice row stays visible. -/
theorem performSearch_visible_iff_contains (toLowerCase : JSString → JSString)
    (query : JSString) (rows : List SearchRow) :
    (∃ shown, performSearch toLowerCase query (some rows) = some shown ∧
      shown.length = rows.length ∧
      ∀ (i : Nat) (row : SearchRow), rows[i]? = some row →
        ∃ after : SearchRow, shown[i]? = some after ∧ after.textContent = row.textContent ∧
          (after.display = [] ↔ toLowerCase query <:+: toLowerCase row.textContent) ∧
          (after.display = "none".toList ↔
            ¬ toLowerCase query <:+: toLowerCase row.textContent)) ∧
      performSearch asciiToLowerCase "ali".toList
          (some [{ textContent := "Alice".toList, display := [] },
            { textContent := "Bob".toList, display := [] }]) =
        some [{ textContent := "Alice".toList, display := [] },
          { textContent := "Bob".toList, display := "none".toList }] := by
  refine ⟨⟨rows.map (filterRow toLowerCase query), rfl, by simp, ?_⟩, by decide⟩
  intro i row hrow
  refine ⟨filterRow toLowerCase query row, ?_, ?_⟩
  · rw [List.getElem?_map, hrow]; rfl
  exact filterRow_display toLowerCase query row

/-! ## Local storage wrapper: proofs -/

theorem assocGet_assocSet {β : Type} (key : JSString) (value : β)
    (items : List (JSString × β)) :
    assocGet key (assocSet key value items) = some value := by
  induction items with
  | nil => simp [assocSet, assocGet]
  | cons kv rest ih =>
    obtain ⟨k, v⟩ := kv
    by_cases hk : k = key
    · simp [assocSet, assocGet, hk]
    · simp [assocSet, assocGet, hk, ih]

theorem Storage_set_ok (json : JSONHost) (store : LocalStorage) (key : JSString)
    (value : JSValue) (text : JSString) (hwrite : store.writeFails = false)
    (htext : json.stringify value = .ok (some text)) :
    Storage.set json store key value =
      .ok { store with items := assocSet key text store.items } := by
  simp [Storage.set, tryCatch, htext, LocalStorage.setItem, hwrite, bind, Except.bind]

theorem Storage_get_stored (json : JSONHost) (store : LocalStorage) (key text : JSString)
    (defaultValue value : JSValue) (hread : store.readFails = false)
    (hitem : assocGet key store.items = some text) (hne : text ≠ [])
    (hparse : json.parse text = .ok value) :
    Storage.get json store key defaultValue = .ok value := by
  have hempty : text.isEmpty = false := by
    cases text with
    | nil => exact absurd rfl hne
    | cons c cs => rfl
  simp [Storage.get, tryCatch, LocalStorage.getItem, hread, hitem, hempty, hparse, bind,
    Except.bind]

theorem tryCatch_pure_total {α : Type} (body : Except JSError α) (fallback : α) :
    ∃ result, tryCatch body (fun _ => pure fallback) = .ok result := by
  cases body with
  | ok a => exact ⟨a, rfl⟩
  | error e => exact ⟨fallback, rfl⟩

theorem Storage_get_total (json : JSONHost) (store : LocalStorage) (key : JSString)
    (defaultValue : JSValue) :
    ∃ result, Storage.get json store key defaultValue = .ok result :=
  tryCatch_pure_total _ _

theorem Storage_get_fallback (json : JSONHost) (store : LocalStorage) (key : JSString)
    (defaultValue : JSValue)
    (h : assocGet key store.items = none ∨
      (∃ text error, assocGet key store.items = some text ∧ json.parse text = .error error) ∨
      store.readFails = true) :
    Storage.get json store key defaultValue = .ok (nullDefault defaultValue) := by
  by_cases hread : store.readFails = true
  · simp [Storage.get, tryCatch, LocalStorage.getItem, hread, bind, Except.bind, pure,
      Except.pure]
  · have hread : store.readFails = false := by simpa using hread
    rcases h with h | ⟨text, error, hitem, hparse⟩ | h
    · simp [Storage.get, tryCatch, LocalStorage.getItem, hread, h, bind, Except.bind, pure,
        Except.pure]
    · by_cases hempty : text.isEmpty = true
      · simp [Storage.get, tryCatch, LocalStorage.getItem, hread, hitem, hempty, bind,
          Except.bind, pure, Except.pure]
      · simp [Storage.get, tryCatch, LocalStorage.getItem, hread, hitem, hempty, hparse,
          bind, Except.bind, pure, Except.pure]
    · rw [hread] at h; cases h

/-- C3: when the store does not throw and `value` is JSON-serializable, `Storage.set(key,
value)` followed by `Storage.get(key, defaultValue)` returns `value`, whatever the default
is. -/
theorem Storage_get_after_set (json : JSONHost) (store : LocalStorage) (key : JSString)
    (value defaultValue : JSValue) (hread : store.readFails = false)
    (hwrite : store.writeFails = false) (hvalue : json.Serializable value) :
    ∃ stored, Storage.set json store key value = .ok stored ∧
      Storage.get json stored key defaultValue = .ok value := by
  obtain ⟨text, htext, hne, hparse⟩ := hvalue
  refine ⟨_, Storage_set_ok json store key value text hwrite htext, ?_⟩
  exact Storage_get_stored json _ key text defaultValue value hread
    (assocGet_assocSet key text store.items) hne hparse

/-- C3, at `set("k", {a: 1})` then `get("k")` on an empty store with the reference host:
the value read back is `{a: 1}`. -/
theorem Storage_get_after_set_witness :
    ∃ stored,
      Storage.set refJSON { items := [], readFails := false, writeFails := false }
          "k".toList (.object [("a".toList, .number 1)]) = .ok stored ∧
        Storage.get refJSON stored "k".toList .undefined =
          .ok (.object [("a".toList, .number 1)]) :=
  Storage_get_after_set refJSON { items := [], readFails := false, writeFails := false }
    "k".toList (.object [("a".toList, .number 1)]) .undefined rfl rfl
    ⟨"\x7b\"a\":1\x7d".toList, rfl, by decide, rfl⟩

/-- C4: `Storage.get(key, defaultValue)` never raises, and whenever the key is absent, the
stored string is not valid JSON, or the store throws on read, it returns the default:
`defaultValue` itself when one is supplied, `null` when it is omitted. So
`get("missing", 42)` is `42`, and so is `get("k", 42)` when the text stored under `k` is
not JSON or the store throws. -/
theorem Storage_get_returns_default (json : JSONHost) (store : LocalStorage)
    (key : JSString) (defaultValue : JSValue) :
    (∃ result, Storage.get json store key defaultValue = .ok result) ∧
      ((assocGet key store.items = none ∨
          (∃ text error, assocGet key store.items = some text ∧
            json.parse text = .error error) ∨
          store.readFails = true) →
        (defaultValue ≠ .undefined →
          Storage.get json store key defaultValue = .ok defaultValue) ∧
        Storage.get json store key .undefined = .ok .null) ∧
      Storage.get refJSON { items := [], readFails := false, writeFails := false }
          "missing".toList (.number 42) = .ok (.number 42) ∧
      Storage.get refJSON
          { items := [("k".toList, "\x7boops".toList)], readFails := false, writeFails := false }
          "k".toList (.number 42) = .ok (.number 42) ∧
      Storage.get refJSON
          { items := [("k".toList, "7".toList)], readFails := true, writeFails := false }
          "k".toList (.number 42) = .ok (.number 42) := by
  refine ⟨Storage_get_total json store key defaultValue, ?_, rfl, rfl, rfl⟩
  intro h
  refine ⟨?_, Storage_get_fallback json store key .undefined h⟩
  intro hd
  rw [Storage_get_fallback json store key defaultValue h]
  cases defaultValue <;> first | rfl | exact absurd rfl hd

/-! ## Theme manager: proofs -/

theorem toJSString_string (s : JSString) : (JSValue.string s).toJSString = s := by
  simp [JSValue.toJSString]

theorem setTheme_ok (json : JSONHost) (browser : Browser) (theme : JSValue) :
    ∃ store, Storage.set json browser.localStorage "theme".toList theme = .ok store ∧
      ThemeManager.setTheme json browser theme =
        .ok { dataTheme := some theme.toJSString, localStorage := store } := by
  obtain ⟨store, hstore⟩ : ∃ store,
      Storage.set json browser.localStorage "theme".toList theme = .ok store :=
    tryCatch_pure_total _ _
  refine ⟨store, hstore, ?_⟩
  simp only [ThemeManager.setTheme, bind, Except.bind, hstore, pure, Except.pure]

theorem toggleTheme_from_light (json : JSONHost) (browser : Browser)
    (h : browser.dataTheme = some "light".toList) :
    ∃ once, ThemeManager.toggleTheme json browser = .ok once ∧
      once.dataTheme = some "dark".toList := by
  obtain ⟨store, -, hset⟩ := setTheme_ok json browser (.string "dark".toList)
  have htoggle : ThemeManager.toggleTheme json browser =
      ThemeManager.setTheme json browser (.string "dark".toList) := by
    simp only [ThemeManager.toggleTheme, h]
    rfl
  exact ⟨_, htoggle.trans hset, toJSString_string _ ▸ rfl⟩

theorem toggleTheme_from_dark (json : JSONHost) (browser : Browser)
    (h : browser.dataTheme = some "dark".toList) :
    ∃ once, ThemeManager.toggleTheme json browser = .ok once ∧
      once.dataTheme = some "light".toList := by
  obtain ⟨store, -, hset⟩ := setTheme_ok json browser (.string "light".toList)
  have htoggle : ThemeManager.toggleTheme json browser =
      ThemeManager.setTheme json browser (.string "light".toList) := by
    simp only [ThemeManager.toggleTheme, h]
    rfl
  exact ⟨_, htoggle.trans hset, toJSString_string _ ▸ rfl⟩

theorem toggleTheme_two_themes (json : JSONHost) (browser : Browser) :
    ∃ once, ThemeManager.toggleTheme json browser = .ok once ∧
      (once.dataTheme = some "light".toList ∨ once.dataTheme = some "dark".toList) := by
  unfold ThemeManager.toggleTheme
  simp only []
  split_ifs with hcur
  · obtain ⟨store, -, hset⟩ := setTheme_ok json browser (.string "dark".toList)
    exact ⟨_, hset, Or.inr rfl⟩
  · obtain ⟨store, -, hset⟩ := setTheme_ok json browser (.string "light".toList)
    exact ⟨_, hset, Or.inl rfl⟩

/-- C5: `toggleTheme` always leaves the document theme `light` or `dark`; from `light` one
toggle yields `dark` and a second one `light` again, and from `dark` two toggles return to
`dark`: on the two themes, toggling twice is the identity. -/
theorem toggleTheme_twice_identity (json : JSONHost) (browser : Browser) :
    (∃ once, ThemeManager.toggleTheme json browser = .ok once ∧
      (once.dataTheme = some "light".toList ∨ once.dataTheme = some "dark".toList)) ∧
    (browser.dataTheme = some "light".toList →
      ∃ once twice, ThemeManager.toggleTheme json browser = .ok once ∧
        once.dataTheme = some "dark".toList ∧
        ThemeManager.toggleTheme json once = .ok twice ∧
        twice.dataTheme = some "light".toList) ∧
    (browser.dataTheme = some "dark".toList →
      ∃ once twice, ThemeManager.toggleTheme json browser = .ok once ∧
        once.dataTheme = some "light".toList ∧
        ThemeManager.toggleTheme json once = .ok twice ∧
        twice.dataTheme = some "dark".toList) := by
  refine ⟨toggleTheme_two_themes json browser, ?_, ?_⟩
  · intro h
    obtain ⟨once, h1, hd1⟩ := toggleTheme_from_light json browser h
    obtain ⟨twice, h2, hd2⟩ := toggleTheme_from_dark json once hd1
    exact ⟨once, twice, h1, hd1, h2, hd2⟩
  · intro h
    obtain ⟨once, h1, hd1⟩ := toggleTheme_from_dark json browser h
    obtain ⟨twice, h2, hd2⟩ := toggleTheme_from_light json once hd1
    exact ⟨once, twice, h1, hd1, h2, hd2⟩

/-- C5, on a page whose theme is `light`, with the reference host and an empty store: the
first toggle gives `dark`, the second `light`. -/
theorem toggleTheme_twice_identity_witness :
    ∃ once twice,
      ThemeManager.toggleTheme refJSON
          { dataTheme := some "light".toList,
            localStorage := { items := [], readFails := false, writeFails := false } } =
        .ok once ∧
      once.dataTheme = some "dark".toList ∧
      ThemeManager.toggleTheme refJSON once = .ok twice ∧
      twice.dataTheme = some "light".toList :=
  (toggleTheme_twice_identity refJSON
    { dataTheme := some "light".toList,
      localStorage := { items := [], readFails := false, writeFails := false } }).2.1 rfl

theorem setTheme_mirrored (json : JSONHost) (browser : Browser) (theme : JSValue)
    (defaultValue : JSValue) (hread : browser.localStorage.readFails = false)
    (hwrite : browser.localStorage.writeFails = false)
    (htheme : json.Serializable theme) :
    ∃ after, ThemeManager.setTheme json browser theme = .ok after ∧
      after.dataTheme = some theme.toJSString ∧
      Storage.get json after.localStorage "theme".toList defaultValue = .ok theme ∧
      ∀ name, theme = .string name → after.dataTheme = some name := by
  obtain ⟨text, htext, hne, hparse⟩ := htheme
  obtain ⟨store, hstore, hset⟩ := setTheme_ok json browser theme
  rw [Storage_set_ok json browser.localStorage "theme".toList theme text hwrite
    htext] at hstore
  refine ⟨_, hset, rfl, ?_, ?_⟩
  · cases hstore
    exact Storage_get_stored json _ "theme".toList text defaultValue theme hread
      (assocGet_assocSet _ text _) hne hparse
  · intro name hname
    rw [hname]
    exact congrArg some (toJSString_string name)

theorem init_eq_setTheme (json : JSONHost) (browser : Browser) (saved : JSValue)
    (hsaved : Storage.get json browser.localStorage "theme".toList
      (.string "light".toList) = .ok saved) :
    ThemeManager.init json browser = ThemeManager.setTheme json browser saved := by
  simp only [ThemeManager.init, bind, Except.bind, hsaved]

/-- C10 (as amended): with a store that does not throw and a JSON-serializable value
written, after `setTheme(theme)`, after `toggleTheme()` and after `init()` the `data-theme`
attribute is the string form of the value that `Storage.get('theme')` reads, and the very
same string when that value is a string. The value is `theme` after `setTheme(theme)`, one
of `light` and `dark` after `toggleTheme()`, `light` after `init()` with nothing stored, and
after any `init()` the value that `Storage.get('theme', 'light')` read before. -/
theorem theme_attribute_mirrors_store (json : JSONHost) (browser : Browser)
    (theme : JSValue) (defaultValue : JSValue)
    (hread : browser.localStorage.readFails = false)
    (hwrite : browser.localStorage.writeFails = false)
    (hlight : json.Serializable (.string "light".toList))
    (hdark : json.Serializable (.string "dark".toList))
    (htheme : json.Serializable theme) :
    (∃ after, ThemeManager.setTheme json browser theme = .ok after ∧
      after.dataTheme = some theme.toJSString ∧
      Storage.get json after.localStorage "theme".toList defaultValue = .ok theme ∧
      ∀ name, theme = .string name → after.dataTheme = some name) ∧
    (∃ after name, ThemeManager.toggleTheme json browser = .ok after ∧
      (name = "light".toList ∨ name = "dark".toList) ∧
      after.dataTheme = some name ∧
      Storage.get json after.localStorage "theme".toList defaultValue =
        .ok (.string name)) ∧
    (assocGet "theme".toList browser.localStorage.items = none →
      ∃ after, ThemeManager.init json browser = .ok after ∧
        after.dataTheme = some "light".toList ∧
        Storage.get json after.localStorage "theme".toList defaultValue =
          .ok (.string "light".toList)) ∧
    (Storage.get json browser.localStorage "theme".toList (.string "light".toList) =
        .ok theme →
      ∃ after, ThemeManager.init json browser = .ok after ∧
        after.dataTheme = some theme.toJSString ∧
        Storage.get json after.localStorage "theme".toList defaultValue = .ok theme ∧
        ∀ name, theme = .string name → after.dataTheme = some name) := by
  refine ⟨setTheme_mirrored json browser theme defaultValue hread hwrite htheme, ?_, ?_, ?_⟩
  · unfold ThemeManager.toggleTheme
    simp only []
    split_ifs with hcur
    · obtain ⟨after, h1, -, h3, h4⟩ :=
        setTheme_mirrored json browser (.string "dark".toList) defaultValue hread hwrite
          hdark
      exact ⟨after, _, h1, Or.inr rfl, h4 _ rfl, h3⟩
    · obtain ⟨after, h1, -, h3, h4⟩ :=
        setTheme_mirrored json browser (.string "light".toList) defaultValue hread hwrite
          hlight
      exact ⟨after, _, h1, Or.inl rfl, h4 _ rfl, h3⟩
  · intro habsent
    have hsaved := Storage_get_fallback json browser.localStorage "theme".toList
      (.string "light".toList) (Or.inl habsent)
    rw [init_eq_setTheme json browser _ hsaved]
    obtain ⟨after, h1, -, h3, h4⟩ :=
      setTheme_mirrored json browser (.string "light".toList) defaultValue hread hwrite
        hlight
    exact ⟨after, h1, h4 _ rfl, h3⟩
  · intro hsaved
    rw [init_eq_setTheme json browser _ hsaved]
    exact setTheme_mirrored json browser theme defaultValue hread hwrite htheme

/-- C10 (as amended), with the reference host, an empty store and `setTheme("dark")`. -/
theorem theme_attribute_mirrors_store_witness :
    ∃ after,
      ThemeManager.setTheme refJSON
          { dataTheme := none,
            localStorage := { items := [], readFails := false, writeFails := false } }
          (.string "dark".toList) = .ok after ∧
        after.dataTheme = some "dark".toList ∧
        Storage.get refJSON after.localStorage "theme".toList .undefined =
          .ok (.string "dark".toList) := by
  obtain ⟨after, hset, -, hget, hname⟩ :=
    (theme_attribute_mirrors_store refJSON
      { dataTheme := none,
        localStorage := { items := [], readFails := false, writeFails := false } }
      (.string "dark".toList) .undefined rfl rfl
      ⟨"\"light\"".toList, rfl, by decide, rfl⟩
      ⟨"\"dark\"".toList, rfl, by decide, rfl⟩
      ⟨"\"dark\"".toList, rfl, by decide, rfl⟩).1
  exact ⟨after, hset, hname _ rfl, hget⟩

/-- C10 (as stated) fails in three ways. `setTheme("blue")` puts `blue`, which is neither
`light` nor `dark`, into the attribute and under the key `theme`. `setTheme(5)`, and
`init()` with `5` stored, leave the string `5` in the attribute and the number `5` in the
store. `setTheme()` without an argument leaves `undefined` in the attribute and a text in
the store that `Storage.get` cannot read, so that it returns its default. -/
theorem setTheme_counterexample :
    (ThemeManager.setTheme refJSON
        { dataTheme := none,
          localStorage := { items := [], readFails := false, writeFails := false } }
        (.string "blue".toList) =
      .ok { dataTheme := some "blue".toList,
            localStorage :=
              { items := [("theme".toList, "\"blue\"".toList)],
                readFails := false, writeFails := false } } ∧
    Storage.get refJSON
        { items := [("theme".toList, "\"blue\"".toList)],
          readFails := false, writeFails := false }
        "theme".toList .undefined = .ok (.string "blue".toList) ∧
    "blue".toList ≠ "light".toList ∧ "blue".toList ≠ "dark".toList) ∧
    (ThemeManager.setTheme refJSON
        { dataTheme := none,
          localStorage := { items := [], readFails := false, writeFails := false } }
        (.number 5) =
      .ok { dataTheme := some "5".toList,
            localStorage :=
              { items := [("theme".toList, "5".toList)],
                readFails := false, writeFails := false } } ∧
    ThemeManager.init refJSON
        { dataTheme := none,
          localStorage :=
            { items := [("theme".toList, "5".toList)],
              readFails := false, writeFails := false } } =
      .ok { dataTheme := some "5".toList,
            localStorage :=
              { items := [("theme".toList, "5".toList)],
                readFails := false, writeFails := false } } ∧
    Storage.get refJSON
        { items := [("theme".toList, "5".toList)], readFails := false, writeFails := false }
        "theme".toList .undefined = .ok (.number 5)) ∧
    (ThemeManager.setTheme refJSON
        { dataTheme := none,
          localStorage := { items := [], readFails := false, writeFails := false } }
        .undefined =
      .ok { dataTheme := some "undefined".toList,
            localStorage :=
              { items := [("theme".toList, "undefined".toList)],
                readFails := false, writeFails := false } } ∧
    Storage.get refJSON
        { items := [("theme".toList, "undefined".toList)],
          readFails := false, writeFails := false }
        "theme".toList (.string "light".toList) = .ok (.string "light".toList)) := by
  refine ⟨⟨rfl, rfl, by decide, by decide⟩, ⟨rfl, rfl, rfl⟩, ⟨rfl, rfl⟩⟩

/-! ## Request helper: proofs -/

theorem truthy_nullDefault (data : JSValue) : (nullDefault data).truthy = data.truthy := by
  cases data <;> rfl

theorem nullDefault_of_truthy (data : JSValue) (h : data.truthy = true) :
    nullDefault data = data := by
  cases data <;> first | rfl | cases h

/-- C7 (as amended): the configuration `makeRequest` passes to `fetch` carries a body
exactly when `data` is truthy and the method is `POST`, `PUT` or `PATCH`, and the body is
then the result of `JSON.stringify(data)`; in every other case, whatever `data` is, the
configuration is built without a body. -/
theorem requestConfig_body (json : JSONHost) (method : Option JSString) (data : JSValue)
    (headers : List (JSString × JSString)) :
    (data.truthy = true ∧
        (method.getD "GET".toList = "POST".toList ∨ method.getD "GET".toList = "PUT".toList ∨
          method.getD "GET".toList = "PATCH".toList) →
      requestConfig json method data headers =
        (json.stringify data).map fun body =>
          { method := method.getD "GET".toList,
            headers := headers.foldl (fun merged (k, v) => assocSet k v merged)
              [("Content-Type".toList, "application/json".toList)],
            body := body }) ∧
    (¬ (data.truthy = true ∧
        (method.getD "GET".toList = "POST".toList ∨ method.getD "GET".toList = "PUT".toList ∨
          method.getD "GET".toList = "PATCH".toList)) →
      requestConfig json method data headers =
        .ok { method := method.getD "GET".toList,
              headers := headers.foldl (fun merged (k, v) => assocSet k v merged)
                [("Content-Type".toList, "application/json".toList)],
              body := none }) ∧
    requestConfig refJSON (some "POST".toList)
        (.object [("status".toList, .string "rented".toList)]) [] =
      .ok { method := "POST".toList,
            headers := [("Content-Type".toList, "application/json".toList)],
            body := some "\x7b\"status\":\"rented\"\x7d".toList } ∧
    requestConfig refJSON (some "DELETE".toList)
        (.object [("status".toList, .string "rented".toList)]) [] =
      .ok { method := "DELETE".toList,
            headers := [("Content-Type".toList, "application/json".toList)],
            body := none } ∧
    requestConfig refJSON none (.object [("status".toList, .string "rented".toList)]) [] =
      .ok { method := "GET".toList,
            headers := [("Content-Type".toList, "application/json".toList)],
            body := none } := by
  refine ⟨?_, ?_, rfl, rfl, rfl⟩
  · rintro ⟨hdata, hmethod⟩
    have hm : (decide (method.getD "GET".toList = "POST".toList) ||
        decide (method.getD "GET".toList = "PUT".toList) ||
        decide (method.getD "GET".toList = "PATCH".toList)) = true := by
      rw [Bool.or_eq_true, Bool.or_eq_true, decide_eq_true_eq, decide_eq_true_eq,
        decide_eq_true_eq]
      exact or_assoc.mpr hmethod
    simp only [requestConfig, nullDefault_of_truthy data hdata, hdata, hm,
      Bool.and_self, if_true, bind, Except.bind, pure, Except.pure, Functor.map, Except.map]
  · intro hnot
    have hm : (data.truthy &&
        (decide (method.getD "GET".toList = "POST".toList) ||
        decide (method.getD "GET".toList = "PUT".toList) ||
        decide (method.getD "GET".toList = "PATCH".toList))) = false := by
      rw [Bool.eq_false_iff]
      intro hcon
      apply hnot
      rw [Bool.and_eq_true, Bool.or_eq_true, Bool.or_eq_true, decide_eq_true_eq,
        decide_eq_true_eq, decide_eq_true_eq] at hcon
      exact ⟨hcon.1, or_assoc.mp hcon.2⟩
    simp only [requestConfig, truthy_nullDefault, hm, pure, Except.pure]
    rfl

/-- C7 (as stated) fails: `makeRequest(url, 'POST', 0)` supplies data with a `POST`, yet
the data is falsy and the configuration carries no body, although `0` serializes to `0`. -/
theorem requestConfig_falsy_data_counterexample :
    requestConfig refJSON (some "POST".toList) (.number 0) [] =
      .ok { method := "POST".toList,
            headers := [("Content-Type".toList, "application/json".toList)],
            body := none } ∧
    refJSON.stringify (.number 0) = .ok (some "0".toList) := by
  exact ⟨rfl, rfl⟩

theorem settle_fails_iff (page : Page) (fetched : Except JSError Response) :
    (∃ error, (settle page fetched).1 = .error error) ↔
      ((∃ error, fetched = .error error) ∨
        ∃ response, fetched = .ok response ∧
          (response.ok = false ∨ ∃ error, response.json = .error error)) := by
  cases fetched with
  | error e => simp [settle, onFailure, bind, Except.bind, throw, throwThe, MonadExceptOf.throw]
  | ok response =>
    cases hok : response.ok with
    | false =>
      simp [settle, onFailure, onResponse, hok, bind, Except.bind, throw, throwThe,
        MonadExceptOf.throw]
    | true =>
      cases hjson : response.json with
      | error e =>
        simp [settle, onFailure, onResponse, hok, hjson, bind, Except.bind, throw, throwThe,
          MonadExceptOf.throw]
      | ok body =>
        simp [settle, onFailure, onResponse, hok, hjson, bind, Except.bind]

theorem settle_failure (page : Page) (fetched : Except JSError Response) (error : JSError)
    (h : (settle page fetched).1 = .error error) :
    (settle page fetched).2 =
        showError page "An error occurred while processing your request.".toList ∧
      (fetched = .error error ∨
        ∃ response, fetched = .ok response ∧
          ((response.ok = false ∧
              error = newError
                ("HTTP error! status: ".toList ++ (toString response.status).toList)) ∨
            (response.ok = true ∧ response.json = .error error))) := by
  cases fetched with
  | error e =>
    simp only [settle, onFailure, bind, Except.bind, throw, throwThe, MonadExceptOf.throw] at h ⊢
    cases h
    exact ⟨trivial, Or.inl rfl⟩
  | ok response =>
    cases hok : response.ok with
    | false =>
      simp only [settle, onFailure, onResponse, hok, bind, Except.bind, throw, throwThe,
        MonadExceptOf.throw, Bool.not_false, if_true] at h ⊢
      cases h
      exact ⟨trivial, Or.inr ⟨response, rfl, Or.inl ⟨hok, rfl⟩⟩⟩
    | true =>
      cases hjson : response.json with
      | error e =>
        simp only [settle, onFailure, onResponse, hok, hjson, bind, Except.bind, throw,
          throwThe, MonadExceptOf.throw, Bool.not_true, Bool.false_eq_true, if_false] at h ⊢
        cases h
        exact ⟨trivial, Or.inr ⟨response, rfl, Or.inr ⟨hok, hjson⟩⟩⟩
      | ok body =>
        simp only [settle, onFailure, onResponse, hok, hjson, bind, Except.bind,
          Bool.not_true, Bool.false_eq_true, if_false] at h
        cases h

theorem settle_success (page : Page) (fetched : Except JSError Response) (body : JSValue)
    (h : (settle page fetched).1 = .ok body) :
    (settle page fetched).2 = page ∧
      ∃ response, fetched = .ok response ∧ response.ok = true ∧ response.json = .ok body := by
  cases fetched with
  | error e =>
    simp only [settle, onFailure, bind, Except.bind, throw, throwThe, MonadExceptOf.throw] at h
    cases h
  | ok response =>
    cases hok : response.ok with
    | false =>
      simp only [settle, onFailure, onResponse, hok, bind, Except.bind, throw, throwThe,
        MonadExceptOf.throw, Bool.not_false, if_true] at h
      cases h
    | true =>
      cases hjson : response.json with
      | error e =>
        simp only [settle, onFailure, onResponse, hok, hjson, bind, Except.bind, throw,
          throwThe, MonadExceptOf.throw, Bool.not_true, Bool.false_eq_true, if_false] at h
        cases h
      | ok value =>
        simp only [settle, onFailure, onResponse, hok, hjson, bind, Except.bind,
          Bool.not_true, Bool.false_eq_true, if_false] at h ⊢
        cases h
        exact ⟨trivial, response, rfl, hok, hjson⟩

theorem requestConfig_throws_iff (json : JSONHost) (method : Option JSString)
    (data : JSValue) (headers : List (JSString × JSString)) (error : JSError) :
    requestConfig json method data headers = .error error ↔
      (data.truthy = true ∧
        (method.getD "GET".toList = "POST".toList ∨ method.getD "GET".toList = "PUT".toList ∨
          method.getD "GET".toList = "PATCH".toList) ∧
        json.stringify data = .error error) := by
  by_cases hbody : (data.truthy &&
      (decide (method.getD "GET".toList = "POST".toList) ||
      decide (method.getD "GET".toList = "PUT".toList) ||
      decide (method.getD "GET".toList = "PATCH".toList))) = true
  · have hboth := hbody
    rw [Bool.and_eq_true, Bool.or_eq_true, Bool.or_eq_true, decide_eq_true_eq,
      decide_eq_true_eq, decide_eq_true_eq] at hboth
    obtain ⟨hdata, hmethod⟩ := hboth
    have hrun : requestConfig json method data headers =
        (json.stringify data).map fun body =>
          ({ method := method.getD "GET".toList,
             headers := headers.foldl (fun merged (k, v) => assocSet k v merged)
               [("Content-Type".toList, "application/json".toList)],
             body := body } : RequestConfig) := by
      have hm : (decide (method.getD "GET".toList = "POST".toList) ||
          decide (method.getD "GET".toList = "PUT".toList) ||
          decide (method.getD "GET".toList = "PATCH".toList)) = true := by
        rw [Bool.or_eq_true, Bool.or_eq_true, decide_eq_true_eq, decide_eq_true_eq,
          decide_eq_true_eq]
        exact hmethod
      simp only [requestConfig, nullDefault_of_truthy data hdata, hdata, hm,
        Bool.and_self, if_true, bind, Except.bind, pure, Except.pure, Functor.map,
        Except.map]
    rw [hrun]
    cases hstringify : json.stringify data with
    | error e =>
      constructor
      · intro h
        have he : e = error := by
          simp only [Except.map] at h
          exact Except.error.inj h
        exact ⟨hdata, or_assoc.mp hmethod, congrArg Except.error he⟩
      · intro h
        have he : e = error := Except.error.inj h.2.2
        rw [he]
        rfl
    | ok body =>
      constructor
      · intro h
        cases h
      · intro h
        cases h.2.2
  · have hm : (data.truthy &&
        (decide (method.getD "GET".toList = "POST".toList) ||
        decide (method.getD "GET".toList = "PUT".toList) ||
        decide (method.getD "GET".toList = "PATCH".toList))) = false := by
      simpa using hbody
    have hrun : requestConfig json method data headers =
        .ok { method := method.getD "GET".toList,
              headers := headers.foldl (fun merged (k, v) => assocSet k v merged)
                [("Content-Type".toList, "application/json".toList)],
              body := none } := by
      simp only [requestConfig, truthy_nullDefault, hm, pure, Except.pure]
      rfl
    rw [hrun]
    constructor
    · intro h
      cases h
    · rintro ⟨hdata, hmethod, -⟩
      exfalso
      apply hbody
      rw [Bool.and_eq_true, Bool.or_eq_true, Bool.or_eq_true, decide_eq_true_eq,
        decide_eq_true_eq, decide_eq_true_eq]
      exact ⟨hdata, or_assoc.mpr hmethod⟩

/-- C8 (as amended): `makeRequest` fails if and only if `JSON.stringify(data)` throws while
the body is built, `fetch` rejects, the response is not `ok`, or reading its body as JSON
fails. In the first case the error is thrown before `fetch` is reached and the page is as
it was, without a notification. In each other case exactly one alert, of class
`alert-danger` and with the generic message, is put in front of the alerts, and the promise
is rejected with the very error that caused the failure (the `HTTP error! status: …` error
for a response that is not `ok`). On success the promise is fulfilled with the parsed body
and the page is as it was. -/
theorem makeRequest_notifies_and_rethrows (json : JSONHost)
    (fetch : JSString → RequestConfig → Except JSError Response) (page : Page)
    (url : JSString) (method : Option JSString) (data : JSValue)
    (headers : List (JSString × JSString)) :
    (∀ error, (makeRequest json fetch page url method data headers).1 = .error error ↔
      (data.truthy = true ∧
        (method.getD "GET".toList = "POST".toList ∨ method.getD "GET".toList = "PUT".toList ∨
          method.getD "GET".toList = "PATCH".toList) ∧
        json.stringify data = .error error)) ∧
    (∀ error, (makeRequest json fetch page url method data headers).1 = .error error →
      (makeRequest json fetch page url method data headers).2 = page) ∧
    (∀ config, requestConfig json method data headers = .ok config →
      ∃ outcome, (makeRequest json fetch page url method data headers).1 = .ok outcome ∧
        ((∃ error, outcome = .error error) ↔
          ((∃ error, fetch url config = .error error) ∨
            ∃ response, fetch url config = .ok response ∧
              (response.ok = false ∨ ∃ error, response.json = .error error))) ∧
        (∀ error, outcome = .error error →
          (makeRequest json fetch page url method data headers).2.alerts =
              { classList := ["alert".toList, "alert-danger".toList,
                  "alert-dismissible".toList, "fade".toList, "show".toList],
                role := some "alert".toList,
                message := "An error occurred while processing your request.".toList } ::
                page.alerts ∧
            (makeRequest json fetch page url method data headers).2.forms = page.forms ∧
            (fetch url config = .error error ∨
              ∃ response, fetch url config = .ok response ∧
                ((response.ok = false ∧
                    error = newError
                      ("HTTP error! status: ".toList ++
                        (toString response.status).toList)) ∨
                  (response.ok = true ∧ response.json = .error error)))) ∧
        (∀ body, outcome = .ok body →
          (makeRequest json fetch page url method data headers).2 = page ∧
            ∃ response, fetch url config = .ok response ∧ response.ok = true ∧
              response.json = .ok body)) := by
  refine ⟨?_, ?_, ?_⟩
  · intro error
    rw [← requestConfig_throws_iff json method data headers error]
    unfold makeRequest
    cases requestConfig json method data headers with
    | error e =>
      constructor
      · intro h
        cases h
        rfl
      · intro h
        cases h
        rfl
    | ok config =>
      constructor
      · intro h
        cases h
      · intro h
        cases h
  · intro error
    unfold makeRequest
    cases requestConfig json method data headers with
    | error e =>
      intro _
      rfl
    | ok config =>
      intro h
      cases h
  · intro config hconfig
    have hrun : makeRequest json fetch page url method data headers =
        (.ok (settle page (fetch url config)).1, (settle page (fetch url config)).2) := by
      simp only [makeRequest, hconfig]
    rw [hrun]
    refine ⟨(settle page (fetch url config)).1, rfl,
      settle_fails_iff page (fetch url config), ?_, ?_⟩
    · intro error herror
      obtain ⟨hpage, hcause⟩ := settle_failure page (fetch url config) error herror
      simp only [hpage]
      exact ⟨rfl, rfl, hcause⟩
    · intro body hbody
      exact settle_success page (fetch url config) body hbody

/-- C8 (as amended), at a `GET` that the server answers with status 500 on a page without
alerts: the promise is rejected with the HTTP error and the page shows the one danger
alert. -/
theorem makeRequest_notifies_and_rethrows_witness :
    makeRequest refJSON
        (fun _ _ => .ok { ok := false, status := 500, json := .ok .null })
        { forms := [], alerts := [], timers := [] }
        "/api/dashboard/stats".toList none .undefined [] =
      (.ok (.error (newError "HTTP error! status: 500".toList)),
        showError { forms := [], alerts := [], timers := [] }
          "An error occurred while processing your request.".toList) ∧
    ∃ outcome,
      (makeRequest refJSON
          (fun _ _ => .ok { ok := false, status := 500, json := .ok .null })
          { forms := [], alerts := [], timers := [] }
          "/api/dashboard/stats".toList none .undefined []).1 = .ok outcome ∧
        ∀ error, outcome = .error error →
          (makeRequest refJSON
            (fun _ _ => .ok { ok := false, status := 500, json := .ok .null })
            { forms := [], alerts := [], timers := [] }
            "/api/dashboard/stats".toList none .undefined []).2.alerts =
            { classList := ["alert".toList, "alert-danger".toList,
                "alert-dismissible".toList, "fade".toList, "show".toList],
              role := some "alert".toList,
              message := "An error occurred while processing your request.".toList } ::
              [] := by
  refine ⟨rfl, ?_⟩
  obtain ⟨outcome, hrun, -, hfail, -⟩ :=
    (makeRequest_notifies_and_rethrows refJSON
      (fun _ _ => .ok { ok := false, status := 500, json := .ok .null })
      { forms := [], alerts := [], timers := [] }
      "/api/dashboard/stats".toList none .undefined []).2.2
      { method := "GET".toList,
        headers := [("Content-Type".toList, "application/json".toList)],
        body := none } rfl
  exact ⟨outcome, hrun, fun error herror => (hfail error herror).1⟩

/-- C8 (as stated) fails: `makeRequest(url, 'POST', 10n)` throws the `TypeError` of
`JSON.stringify` before `fetch` is reached. The request fails although `fetch` would have
been fulfilled with an `ok` response and a readable body, and no alert is shown. -/
theorem makeRequest_bigint_counterexample :
    makeRequest refJSON
        (fun _ _ => .ok { ok := true, status := 200, json := .ok .null })
        { forms := [], alerts := [], timers := [] }
        "/admin/vehicles/7/status".toList (some "POST".toList) (.bigint 10) [] =
      (.error { name := "TypeError".toList,
                message := "Do not know how to serialize a BigInt".toList },
        { forms := [], alerts := [], timers := [] }) := by
  rfl

/-! ## Forms: proofs -/

theorem mem_classListAdd_self (classList : List JSString) (token : JSString) :
    token ∈ classListAdd classList token := by
  unfold classListAdd
  split_ifs with h
  · exact h
  · simp

theorem mem_classListAdd_of_mem (classList : List JSString) (token other : JSString)
    (h : other ∈ classList) : other ∈ classListAdd classList token := by
  unfold classListAdd
  split_ifs
  · exact h
  · exact List.mem_append_left _ h

theorem not_mem_classListRemove (classList : List JSString) (token : JSString) :
    token ∉ classListRemove classList token := by
  simp [classListRemove]

theorem getElem?_setForm (page : Page) (i : Nat) (old form : Form)
    (h : page.forms[i]? = some old) : (page.setForm i form).forms[i]? = some form := by
  obtain ⟨hi, -⟩ := List.getElem?_eq_some_iff.mp h
  simp [Page.setForm, List.getElem?_set, hi]

theorem runListener_validation (i : Nat) (page : Page) (event : SubmitEvent) (form : Form)
    (h : page.forms[i]? = some form) :
    runListener i (page, event) .validation =
      (page.setForm i
          { form with classList := classListAdd form.classList "was-validated".toList },
        if !form.checkValidity then
          { event with defaultPrevented := true, propagationStopped := true }
        else event) := by
  simp only [runListener, h]

theorem runListener_loading_none (i : Nat) (page : Page) (event : SubmitEvent) (form : Form)
    (h : page.forms[i]? = some form) (hbutton : form.submitButton = none) :
    runListener i (page, event) .loading = (page, event) := by
  simp only [runListener, h, hbutton]

theorem runListener_loading_disabled (i : Nat) (page : Page) (event : SubmitEvent)
    (form : Form) (button : Button) (h : page.forms[i]? = some form)
    (hbutton : form.submitButton = some button) (hdisabled : button.disabled = true) :
    runListener i (page, event) .loading = (page, event) := by
  simp only [runListener, h, hbutton, hdisabled, Bool.not_true, Bool.false_eq_true, if_false]

theorem runListener_loading_enabled (i : Nat) (page : Page) (event : SubmitEvent)
    (form : Form) (button : Button) (h : page.forms[i]? = some form)
    (hbutton : form.submitButton = some button) (hdisabled : button.disabled = false) :
    runListener i (page, event) .loading = (showLoading page i form button, event) := by
  simp only [runListener, h, hbutton, hdisabled, Bool.not_false, if_true]

theorem showLoading_forms (page : Page) (i : Nat) (form : Form) (button : Button)
    (h : page.forms[i]? = some form) :
    (showLoading page i form button).forms[i]? =
      some { form with submitButton := some (loadingButton button) } :=
  getElem?_setForm page i form _ h

theorem showLoading_timers (page : Page) (i : Nat) (form : Form) (button : Button) :
    (showLoading page i form button).timers =
      page.timers ++ [{ delay := 10000, action := TimerAction.hideLoading i }] := rfl

theorem formInvalid_step (i : Nat) (state : Page × SubmitEvent) (listener : SubmitListener)
    (h : FormInvalid i state) : FormInvalid i (runListener i state listener) := by
  obtain ⟨page, event⟩ := state
  obtain ⟨form, hform, hinvalid⟩ := h
  cases listener with
  | validation =>
    rw [runListener_validation i page event form hform]
    exact ⟨_, getElem?_setForm page i form _ hform, hinvalid⟩
  | loading =>
    cases hbutton : form.submitButton with
    | none =>
      rw [runListener_loading_none i page event form hform hbutton]
      exact ⟨form, hform, hinvalid⟩
    | some button =>
      cases hdisabled : button.disabled with
      | true =>
        rw [runListener_loading_disabled i page event form button hform hbutton hdisabled]
        exact ⟨form, hform, hinvalid⟩
      | false =>
        rw [runListener_loading_enabled i page event form button hform hbutton hdisabled]
        exact ⟨_, showLoading_forms page i form button hform, hinvalid⟩

theorem submitCancelled_validation (i : Nat) (state : Page × SubmitEvent)
    (h : FormInvalid i state) : SubmitCancelled i (runListener i state .validation) := by
  obtain ⟨page, event⟩ := state
  obtain ⟨form, hform, hinvalid⟩ := h
  rw [runListener_validation i page event form hform]
  refine ⟨?_, ?_, _, getElem?_setForm page i form _ hform, mem_classListAdd_self _ _⟩
  · simp [hinvalid]
  · simp [hinvalid]

theorem submitCancelled_step (i : Nat) (state : Page × SubmitEvent)
    (listener : SubmitListener) (h : SubmitCancelled i state) :
    SubmitCancelled i (runListener i state listener) := by
  obtain ⟨page, event⟩ := state
  obtain ⟨hprevented, hstopped, form, hform, hclass⟩ := h
  cases listener with
  | validation =>
    rw [runListener_validation i page event form hform]
    refine ⟨?_, ?_, _, getElem?_setForm page i form _ hform,
      mem_classListAdd_of_mem _ _ _ hclass⟩
    · split_ifs
      · rfl
      · exact hprevented
    · split_ifs
      · rfl
      · exact hstopped
  | loading =>
    cases hbutton : form.submitButton with
    | none =>
      rw [runListener_loading_none i page event form hform hbutton]
      exact ⟨hprevented, hstopped, form, hform, hclass⟩
    | some button =>
      cases hdisabled : button.disabled with
      | true =>
        rw [runListener_loading_disabled i page event form button hform hbutton hdisabled]
        exact ⟨hprevented, hstopped, form, hform, hclass⟩
      | false =>
        rw [runListener_loading_enabled i page event form button hform hbutton hdisabled]
        exact ⟨hprevented, hstopped, _, showLoading_forms page i form button hform, hclass⟩

theorem submitCancelled_foldl (i : Nat) (listeners : List SubmitListener)
    (state : Page × SubmitEvent) (hinvalid : FormInvalid i state)
    (h : SubmitCancelled i state ∨ SubmitListener.validation ∈ listeners) :
    SubmitCancelled i (listeners.foldl (runListener i) state) := by
  induction listeners generalizing state with
  | nil =>
    rcases h with h | h
    · exact h
    · cases h
  | cons listener rest ih =>
    rw [List.foldl_cons]
    apply ih _ (formInvalid_step i state listener hinvalid)
    rcases h with h | h
    · exact Or.inl (submitCancelled_step i state listener h)
    · rcases List.mem_cons.mp h with h | h
      · subst h
        exact Or.inl (submitCancelled_validation i state hinvalid)
      · exact Or.inr h

theorem initializeFormValidations_forms (page : Page) (i : Nat) (form : Form)
    (h : page.forms[i]? = some form) :
    (initializeFormValidations page).forms[i]? =
      some { form with
        listeners :=
          if "needs-validation".toList ∈ form.classList then
            form.listeners ++ [SubmitListener.validation]
          else form.listeners } := by
  simp only [initializeFormValidations, List.getElem?_map, h, Option.map_some']
  split_ifs <;> rfl

theorem initializeLoadingStates_forms (page : Page) (i : Nat) (form : Form)
    (h : page.forms[i]? = some form) :
    (initializeLoadingStates page).forms[i]? =
      some { form with listeners := form.listeners ++ [SubmitListener.loading] } := by
  simp only [initializeLoadingStates, List.getElem?_map, h, Option.map_some']

theorem initializeAutoHideAlerts_forms (page : Page) :
    (initializeAutoHideAlerts page).forms = page.forms := rfl

theorem initializeApp_aborted (widgets : Widgets) (page : Page) (error : JSError)
    (h : initializeTooltips widgets = .error error) :
    initializeApp widgets page = (page, .error error) := by
  simp only [initializeApp, h]

theorem initializeApp_page (widgets : Widgets) (page : Page)
    (h : initializeTooltips widgets = .ok ()) :
    initializeApp widgets page =
      (initializeLoadingStates (initializeAutoHideAlerts (initializeFormValidations page)),
        initializeDataTables widgets) := by
  simp only [initializeApp, h]

theorem dispatchSubmit_cancelled (ready : Page) (i : Nat) (form : Form)
    (hform : ready.forms[i]? = some form) (hinvalid : form.checkValidity = false)
    (hlistener : SubmitListener.validation ∈ form.listeners) :
    SubmitCancelled i (dispatchSubmit ready i) := by
  simp only [dispatchSubmit, hform]
  exact submitCancelled_foldl i form.listeners _ ⟨form, hform, hinvalid⟩ (Or.inr hlistener)

/-- C6 (as amended): for every form of the page that has the class `needs-validation` when
`initializeFormValidations()` runs, a submit event on the form while it fails its
constraint check has its default action prevented and its propagation stopped, and the
form gains the class `was-validated`. This holds right after `initializeFormValidations()`
and also after the later initializers `initializeAutoHideAlerts()` and
`initializeLoadingStates()` have run. -/
theorem invalid_submit_is_cancelled (page : Page) (i : Nat) (form : Form)
    (hform : page.forms[i]? = some form)
    (hclass : "needs-validation".toList ∈ form.classList)
    (hinvalid : form.checkValidity = false) :
    ((dispatchSubmit (initializeFormValidations page) i).2.defaultPrevented = true ∧
      (dispatchSubmit (initializeFormValidations page) i).2.propagationStopped = true ∧
      ∃ after, (dispatchSubmit (initializeFormValidations page) i).1.forms[i]? = some after ∧
        "was-validated".toList ∈ after.classList) ∧
    ((dispatchSubmit (initializeLoadingStates (initializeAutoHideAlerts
        (initializeFormValidations page))) i).2.defaultPrevented = true ∧
      (dispatchSubmit (initializeLoadingStates (initializeAutoHideAlerts
        (initializeFormValidations page))) i).2.propagationStopped = true ∧
      ∃ after, (dispatchSubmit (initializeLoadingStates (initializeAutoHideAlerts
        (initializeFormValidations page))) i).1.forms[i]? = some after ∧
        "was-validated".toList ∈ after.classList) := by
  have hflagged := initializeFormValidations_forms page i form hform
  rw [if_pos hclass] at hflagged
  have hready := initializeLoadingStates_forms
    (initializeAutoHideAlerts (initializeFormValidations page)) i _ hflagged
  constructor
  · exact dispatchSubmit_cancelled _ i _ hflagged hinvalid (by simp)
  · exact dispatchSubmit_cancelled _ i _ hready hinvalid (by simp)

/-- C6 (as amended), on a page whose one form is marked `needs-validation`, is invalid and
has an enabled submit button. -/
theorem invalid_submit_is_cancelled_witness :
    (dispatchSubmit (initializeFormValidations
        { forms := [{ classList := ["needs-validation".toList], checkValidity := false,
                      submitButton := some { disabled := false, classList := [] },
                      listeners := [] }],
          alerts := [], timers := [] }) 0).2.defaultPrevented = true ∧
      (dispatchSubmit (initializeFormValidations
        { forms := [{ classList := ["needs-validation".toList], checkValidity := false,
                      submitButton := some { disabled := false, classList := [] },
                      listeners := [] }],
          alerts := [], timers := [] }) 0).2.propagationStopped = true ∧
      ∃ after, (dispatchSubmit (initializeFormValidations
        { forms := [{ classList := ["needs-validation".toList], checkValidity := false,
                      submitButton := some { disabled := false, classList := [] },
                      listeners := [] }],
          alerts := [], timers := [] }) 0).1.forms[0]? = some after ∧
        "was-validated".toList ∈ after.classList :=
  (invalid_submit_is_cancelled
    { forms := [{ classList := ["needs-validation".toList], checkValidity := false,
                      submitButton := some { disabled := false, classList := [] },
                      listeners := [] }],
          alerts := [], timers := [] } 0
    { classList := ["needs-validation".toList], checkValidity := false,
      submitButton := some { disabled := false, classList := [] }, listeners := [] }
    rfl (by decide) rfl).1

/-- C6 (as stated) fails: a form without the class `needs-validation` gets no validation
listener, so an invalid submission of it is not prevented and the form is not marked,
whether only `initializeFormValidations()` has run or the later initializers too. -/
theorem unflagged_form_counterexample :
    dispatchSubmit (initializeFormValidations
        { forms := [{ classList := [], checkValidity := false, submitButton := none,
                      listeners := [] }],
          alerts := [], timers := [] }) 0 =
      ({ forms := [{ classList := [], checkValidity := false, submitButton := none,
                     listeners := [] }],
         alerts := [], timers := [] },
        { defaultPrevented := false, propagationStopped := false }) ∧
    dispatchSubmit (initializeLoadingStates (initializeAutoHideAlerts
      (initializeFormValidations
        { forms := [{ classList := [], checkValidity := false, submitButton := none,
                      listeners := [] }],
          alerts := [], timers := [] }))) 0 =
      ({ forms := [{ classList := [], checkValidity := false, submitButton := none,
                     listeners := [SubmitListener.loading] }],
         alerts := [], timers := [] },
        { defaultPrevented := false, propagationStopped := false }) := by
  decide

/-! ## Loading state of the submit button: proofs -/

theorem buttonIs_validation (i : Nat) (button : Button) (timers : List Timer)
    (state : Page × SubmitEvent) (h : ButtonIs i button timers state) :
    ButtonIs i button timers (runListener i state .validation) := by
  obtain ⟨page, event⟩ := state
  obtain ⟨form, hform, hbutton, htimers⟩ := h
  rw [runListener_validation i page event form hform]
  exact ⟨_, getElem?_setForm page i form _ hform, hbutton, htimers⟩

theorem buttonIs_loading_disabled (i : Nat) (button : Button) (timers : List Timer)
    (state : Page × SubmitEvent) (hdisabled : button.disabled = true)
    (h : ButtonIs i button timers state) :
    ButtonIs i button timers (runListener i state .loading) := by
  obtain ⟨page, event⟩ := state
  obtain ⟨form, hform, hbutton, htimers⟩ := h
  rw [runListener_loading_disabled i page event form button hform hbutton hdisabled]
  exact ⟨form, hform, hbutton, htimers⟩

theorem buttonIs_loading_enabled (i : Nat) (button : Button) (timers : List Timer)
    (state : Page × SubmitEvent) (hdisabled : button.disabled = false)
    (h : ButtonIs i button timers state) :
    ButtonIs i (loadingButton button)
      (timers ++ [{ delay := 10000, action := TimerAction.hideLoading i }])
      (runListener i state .loading) := by
  obtain ⟨page, event⟩ := state
  obtain ⟨form, hform, hbutton, htimers⟩ := h
  rw [runListener_loading_enabled i page event form button hform hbutton hdisabled]
  refine ⟨_, showLoading_forms page i form button hform, rfl, ?_⟩
  rw [showLoading_timers]
  exact congrArg (· ++ [{ delay := 10000, action := TimerAction.hideLoading i }]) htimers

theorem buttonIs_foldl_disabled (i : Nat) (button : Button) (timers : List Timer)
    (listeners : List SubmitListener) (state : Page × SubmitEvent)
    (hdisabled : button.disabled = true) (h : ButtonIs i button timers state) :
    ButtonIs i button timers (listeners.foldl (runListener i) state) := by
  induction listeners generalizing state with
  | nil => exact h
  | cons listener rest ih =>
    rw [List.foldl_cons]
    apply ih
    cases listener with
    | validation => exact buttonIs_validation i button timers state h
    | loading => exact buttonIs_loading_disabled i button timers state hdisabled h

theorem buttonIs_foldl_enabled (i : Nat) (button : Button) (timers : List Timer)
    (listeners : List SubmitListener) (state : Page × SubmitEvent)
    (hdisabled : button.disabled = false) (h : ButtonIs i button timers state)
    (hloading : SubmitListener.loading ∈ listeners) :
    ButtonIs i (loadingButton button)
      (timers ++ [{ delay := 10000, action := TimerAction.hideLoading i }])
      (listeners.foldl (runListener i) state) := by
  induction listeners generalizing state with
  | nil => cases hloading
  | cons listener rest ih =>
    rw [List.foldl_cons]
    cases listener with
    | validation =>
      apply ih _ (buttonIs_validation i button timers state h)
      rcases List.mem_cons.mp hloading with hl | hl
      · cases hl
      · exact hl
    | loading =>
      exact buttonIs_foldl_disabled i (loadingButton button) _ rest _ rfl
        (buttonIs_loading_enabled i button timers state hdisabled h)

theorem fireTimer_hideLoading (page : Page) (i delay : Nat) (form : Form) (button : Button)
    (hform : page.forms[i]? = some form) (hbutton : form.submitButton = some button) :
    (fireTimer page { delay := delay, action := TimerAction.hideLoading i }).forms[i]? =
      some { form with submitButton := some (hideLoading button) } := by
  simp only [fireTimer, hform, hbutton]
  exact getElem?_setForm _ i form _ hform

/-- C9: after `initializeLoadingStates()` has run, a submit event on a form whose submit
button exists and is not disabled leaves the button disabled and with the class `loading`,
and adds one timer of 10000 ms; when that timer fires, in whatever state the page then is,
the button is enabled and without the class `loading`. A button that is already disabled
at submit time stays as it is and no timer is added. -/
theorem submit_button_loading (page later : Page) (i : Nat) (form laterForm : Form)
    (button laterButton : Button)
    (hform : page.forms[i]? = some form) (hbutton : form.submitButton = some button)
    (hlater : later.forms[i]? = some laterForm)
    (hlaterButton : laterForm.submitButton = some laterButton) :
    (button.disabled = false →
      (∃ after busy,
        (dispatchSubmit (initializeLoadingStates page) i).1.forms[i]? = some after ∧
        after.submitButton = some busy ∧ busy.disabled = true ∧
        "loading".toList ∈ busy.classList) ∧
      (dispatchSubmit (initializeLoadingStates page) i).1.timers =
        page.timers ++ [{ delay := 10000, action := TimerAction.hideLoading i }] ∧
      ∃ done idle,
        (fireTimer (dispatchSubmit (initializeLoadingStates page) i).1
          { delay := 10000, action := TimerAction.hideLoading i }).forms[i]? = some done ∧
        done.submitButton = some idle ∧ idle.disabled = false ∧
        "loading".toList ∉ idle.classList) ∧
    (button.disabled = true →
      (∃ after, (dispatchSubmit (initializeLoadingStates page) i).1.forms[i]? = some after ∧
        after.submitButton = some button) ∧
      (dispatchSubmit (initializeLoadingStates page) i).1.timers = page.timers) ∧
    (∃ done idle,
      (fireTimer later { delay := 10000, action := TimerAction.hideLoading i }).forms[i]? =
        some done ∧
      done.submitButton = some idle ∧ idle.disabled = false ∧
      "loading".toList ∉ idle.classList) := by
  have hready := initializeLoadingStates_forms page i form hform
  have hstart : ButtonIs i button page.timers
      (initializeLoadingStates page,
        { defaultPrevented := false, propagationStopped := false }) :=
    ⟨_, hready, hbutton, rfl⟩
  refine ⟨?_, ?_, ?_⟩
  · intro hdisabled
    have hbusy : ButtonIs i (loadingButton button)
        (page.timers ++ [{ delay := 10000, action := TimerAction.hideLoading i }])
        (dispatchSubmit (initializeLoadingStates page) i) := by
      simp only [dispatchSubmit, hready]
      exact buttonIs_foldl_enabled i button _ _ _ hdisabled hstart (by simp)
    obtain ⟨after, hafter, hafterButton, htimers⟩ := hbusy
    refine ⟨⟨after, _, hafter, hafterButton, rfl, mem_classListAdd_self _ _⟩, htimers, ?_⟩
    exact ⟨_, _, fireTimer_hideLoading _ i 10000 after _ hafter hafterButton, rfl, rfl,
      not_mem_classListRemove _ _⟩
  · intro hdisabled
    have hsame : ButtonIs i button page.timers
        (dispatchSubmit (initializeLoadingStates page) i) := by
      simp only [dispatchSubmit, hready]
      exact buttonIs_foldl_disabled i button _ _ _ hdisabled hstart
    obtain ⟨after, hafter, hafterButton, htimers⟩ := hsame
    exact ⟨⟨after, hafter, hafterButton⟩, htimers⟩
  · exact ⟨_, _, fireTimer_hideLoading later i 10000 laterForm laterButton hlater
      hlaterButton, rfl, rfl, not_mem_classListRemove _ _⟩

/-- C9, on a page whose one form has an enabled submit button of class `btn`: the submit
event leaves the button disabled with the classes `btn` and `loading` and one timer of
10000 ms pending, and firing that timer gives back the enabled button of class `btn`. -/
theorem submit_button_loading_witness :
    (dispatchSubmit (initializeLoadingStates
        { forms := [{ classList := [], checkValidity := true,
                      submitButton := some { disabled := false, classList := ["btn".toList] },
                      listeners := [] }],
          alerts := [], timers := [] }) 0).1 =
      { forms := [{ classList := [], checkValidity := true,
                    submitButton :=
                      some { disabled := true, classList := ["btn".toList, "loading".toList] },
                    listeners := [SubmitListener.loading] }],
        alerts := [],
        timers := [{ delay := 10000, action := TimerAction.hideLoading 0 }] } ∧
    (fireTimer (dispatchSubmit (initializeLoadingStates
        { forms := [{ classList := [], checkValidity := true,
                      submitButton := some { disabled := false, classList := ["btn".toList] },
                      listeners := [] }],
          alerts := [], timers := [] }) 0).1
      { delay := 10000, action := TimerAction.hideLoading 0 }) =
      { forms := [{ classList := [], checkValidity := true,
                    submitButton := some { disabled := false, classList := ["btn".toList] },
                    listeners := [SubmitListener.loading] }],
        alerts := [], timers := [] } ∧
    ∃ done idle,
      (fireTimer (dispatchSubmit (initializeLoadingStates
        { forms := [{ classList := [], checkValidity := true,
                      submitButton := some { disabled := false, classList := ["btn".toList] },
                      listeners := [] }],
          alerts := [], timers := [] }) 0).1
        { delay := 10000, action := TimerAction.hideLoading 0 }).forms[0]? = some done ∧
      done.submitButton = some idle ∧ idle.disabled = false ∧
      "loading".toList ∉ idle.classList :=
  ⟨by decide, by decide,
    ((submit_button_loading
      { forms := [{ classList := [], checkValidity := true,
                      submitButton := some { disabled := false, classList := ["btn".toList] },
                      listeners := [] }],
          alerts := [], timers := [] }
      { forms := [{ classList := [], checkValidity := true,
                      submitButton := some { disabled := false, classList := ["btn".toList] },
                      listeners := [] }],
          alerts := [], timers := [] } 0
      { classList := [], checkValidity := true,
        submitButton := some { disabled := false, classList := ["btn".toList] },
        listeners := [] }
      { classList := [], checkValidity := true,
        submitButton := some { disabled := false, classList := ["btn".toList] },
        listeners := [] }
      { disabled := false, classList := ["btn".toList] } { disabled := false, classList := ["btn".toList] } rfl rfl rfl rfl).1 rfl).2.2⟩

end SmartRide
